import Mathlib

/-!
Verification development for the crm-dashboard booking core.

The definitions below are a shallow embedding of the booking write paths and
availability checkers of the repository:

* `publicCreateBooking` embeds the POST handler of
  `src/server/api/public-bookings.ts` (table `booking`);
* `adminCreateBooking` and `adminUpdateBooking` embed the POST and PUT cases
  of the `/api/bookings` event handler in `src/unnamed/part_017`
  (table `bookings` — note: a different table from `booking`);
* `isTimeSlotAvailable` embeds the function of the same name in
  `src/app/components/booking/StepCustomerInfo.vue`;
* `getBookingsOverlappingTime` embeds the function of the same name in
  `src/unnamed/part_010`;
* `timeSlots` embeds the slot-grid loop of `StepCustomerInfo.vue`.

Timestamps are modelled as seconds since an epoch (ISO-8601 strings of equal
format compare lexicographically exactly as their instants compare, so the
PostgREST `lte`/`gte` comparisons on stored ISO strings are modelled as
numeric comparisons).  HH:MM strings stored by the admin path are modelled
as minutes of day.
-/

namespace Crm

/-! ## Character/string parsing utilities (kernel-reduction friendly) -/

def isDigitCh (c : Char) : Bool :=
  decide (48 ≤ c.toNat) && decide (c.toNat ≤ 57)

def isHexCh (c : Char) : Bool :=
  isDigitCh c || (decide (97 ≤ c.toNat) && decide (c.toNat ≤ 102)) ||
    (decide (65 ≤ c.toNat) && decide (c.toNat ≤ 70))

/-- Split a character list at every occurrence of the separator. -/
def splitCh (sep : Char) : List Char → List (List Char)
  | [] => [[]]
  | c :: cs =>
    let rest := splitCh sep cs
    if c == sep then
      [] :: rest
    else
      match rest with
      | [] => [[c]]
      | g :: gs => (c :: g) :: gs

/-- Numeric value of a list of decimal digit characters. -/
def natOfDigitList (l : List Char) : Nat :=
  l.foldl (fun n c => n * 10 + (c.toNat - 48)) 0

/-- Shallow embedding of zod `z.string().uuid()`: 8-4-4-4-12 groups of hex
digits separated by dashes. -/
def isUuid (s : String) : Bool :=
  match splitCh '-' s.data with
  | [a, b, c, d, e] =>
    decide (a.length = 8) && decide (b.length = 4) && decide (c.length = 4) &&
    decide (d.length = 4) && decide (e.length = 12) &&
    (a ++ b ++ c ++ d ++ e).all isHexCh
  | _ => false

/-- The regex from both booking schemas: `^\d{4}-\d{2}-\d{2}$`. -/
def matchesDateShape (s : String) : Bool :=
  match splitCh '-' s.data with
  | [y, m, d] =>
    decide (y.length = 4) && decide (m.length = 2) && decide (d.length = 2) &&
    (y ++ m ++ d).all isDigitCh
  | _ => false

/-- The regex from the part_017 schemas: `^\d{2}:\d{2}$`. -/
def matchesTimeShape (s : String) : Bool :=
  match splitCh ':' s.data with
  | [h, m] =>
    decide (h.length = 2) && decide (m.length = 2) && (h ++ m).all isDigitCh
  | _ => false

/-! ## Calendar arithmetic (JS `Date` parsing of `YYYY-MM-DDTHH:MM:00`) -/

def isLeapYear (y : Nat) : Bool :=
  (y % 4 == 0 && y % 100 != 0) || y % 400 == 0

def daysInMonth (y m : Nat) : Nat :=
  if m == 2 then (if isLeapYear y then 29 else 28)
  else if m == 4 || m == 6 || m == 9 || m == 11 then 30
  else 31

def daysBeforeMonth (y m : Nat) : Nat :=
  ((List.range (m - 1)).map (fun i => daysInMonth y (i + 1))).sum

/-- Day count of a proleptic-Gregorian date; consecutive calendar dates map to
consecutive numbers, which is all the interval comparisons depend on. -/
def dayNumber (y m d : Nat) : Nat :=
  365 * y + (y - 1) / 4 - (y - 1) / 100 + (y - 1) / 400 + daysBeforeMonth y m + (d - 1)

/-- Parse a `YYYY-MM-DD` string the way `new Date` accepts the date part of an
ISO string: shape plus month and day range checks. -/
def parseDateYMD (s : String) : Option (Nat × Nat × Nat) :=
  if matchesDateShape s then
    match splitCh '-' s.data with
    | [ys, ms, ds] =>
      let y := natOfDigitList ys
      let m := natOfDigitList ms
      let d := natOfDigitList ds
      if 1 ≤ m ∧ m ≤ 12 ∧ 1 ≤ d ∧ d ≤ daysInMonth y m then some (y, m, d) else none
    | _ => none
  else none

/-- Parse an `HH:MM` string as the time part of an ISO string. -/
def parseTimeHM (s : String) : Option (Nat × Nat) :=
  if matchesTimeShape s then
    match splitCh ':' s.data with
    | [hs, ms] =>
      let h := natOfDigitList hs
      let mi := natOfDigitList ms
      if h ≤ 23 ∧ mi ≤ 59 then some (h, mi) else none
    | _ => none
  else none

/-- Instant (seconds) denoted by `new Date(date ++ "T" ++ time ++ ":00")`;
`none` models the JS Invalid Date. -/
def jsCombine (dateStr timeStr : String) : Option Nat :=
  match parseDateYMD dateStr, parseTimeHM timeStr with
  | some (y, m, d), some (h, mi) => some (dayNumber y m d * 86400 + h * 3600 + mi * 60)
  | _, _ => none

/-- Minutes-of-day value of a shape-valid `HH:MM` string. -/
def hmValue (s : String) : Nat :=
  match splitCh ':' s.data with
  | [h, m] => natOfDigitList h * 60 + natOfDigitList m
  | _ => 0

def pad2 (n : Nat) : String :=
  if n < 10 then "0" ++ toString n else toString n

/-- Render minutes of day back to the stored `HH:MM` string. -/
def hmRender (n : Nat) : String :=
  pad2 (n / 60) ++ ":" ++ pad2 (n % 60)

/-! ## Data model -/

inductive BookingStatus
  | pending
  | confirmed
  | completed
  | cancelled
deriving DecidableEq, Repr

structure Service where
  id : String
  price : Int
  duration_service_in_s : Nat
deriving DecidableEq, Repr

structure ClientProfile where
  id : String
  client_business_id : Option String
deriving DecidableEq, Repr

/-- A row of the `booking` table, written only by the public endpoint.
`start_sec`/`end_sec` model the stored ISO timestamp strings as instants. -/
structure PublicBooking where
  id : String
  customer_id : String
  client_profile_id : String
  client_business_id : String
  employee_id : String
  service_id : String
  booking_date : String
  start_sec : Nat
  end_sec : Nat
  status : BookingStatus
  total_price : Int
  notes : Option String
deriving DecidableEq, Repr

/-- A row of the `bookings` table, written only by the part_017 endpoint.
`start_hm` models the stored raw `HH:MM` request string as minutes of day;
`end_hm` models the stored `endTime.toTimeString().substring(0, 5)` string,
with `none` standing for the `"Inval"` text produced from an Invalid Date. -/
structure AdminBooking where
  id : String
  client_id : String
  employee_id : String
  service_id : String
  booking_date : String
  start_hm : Nat
  end_hm : Option Nat
  status : BookingStatus
  total_price : Int
  notes : Option String
deriving DecidableEq, Repr

/-- The persistence collaborator: the tables the booking handlers touch.
`next_id` stands in for DB-generated row identifiers. -/
structure Db where
  client_profiles : List ClientProfile
  services : List Service
  customers : List String
  booking_table : List PublicBooking
  bookings_table : List AdminBooking
  next_id : Nat
deriving DecidableEq, Repr

/-! ## Requests -/

/-- Body shape of `createBookingSchema` in `public-bookings.ts`.  Note that
`start_time` there is a bare `z.string()` with no format validation. -/
structure PublicBookingRequest where
  client_profile_id : String
  customer_id : String
  employee_id : String
  service_id : String
  booking_date : String
  start_time : String
  notes : Option String
deriving DecidableEq, Repr

/-- Body shape of `createBookingSchema` in part_017 (all fields validated). -/
structure AdminBookingRequest where
  client_id : String
  employee_id : String
  service_id : String
  booking_date : String
  start_time : String
  notes : Option String
deriving DecidableEq, Repr

/-- Body shape of `updateBookingSchema` in part_017 (all fields optional). -/
structure AdminBookingPatch where
  employee_id : Option String
  service_id : Option String
  booking_date : Option String
  start_time : Option String
  status : Option BookingStatus
  notes : Option String
deriving DecidableEq, Repr

/-! ## Public create path (`src/server/api/public-bookings.ts`)

Errors are reported as the handler's HTTP status codes:
400 invalid input, 404 not found, 409 conflict, 500 internal. -/

/-- The zod `safeParse` gate of `public-bookings.ts`: the four ids must be
UUIDs and `booking_date` must match the date regex; `start_time` is NOT
validated. -/
def publicShapeOk (req : PublicBookingRequest) : Bool :=
  isUuid req.client_profile_id && isUuid req.customer_id && isUuid req.employee_id &&
    isUuid req.service_id && matchesDateShape req.booking_date

/-- The conflict query of lines 105-111: rows of `booking` with the same
employee and the same `booking_date` satisfying
`start_time <= endTimeISO AND end_time >= startTimeISO` (PostgREST `lte`/
`gte`, so closed bounds) — with no filter on `status`. -/
def publicConflictRows (table : List PublicBooking) (emp bdate : String)
    (startSec endSec : Nat) : List PublicBooking :=
  table.filter (fun b =>
    b.employee_id == emp && b.booking_date == bdate &&
      decide (b.start_sec ≤ endSec) && decide (b.end_sec ≥ startSec))

/-- The read phase of the handler's check-then-insert: `conflicts.length > 0`. -/
def publicCheckPhase (table : List PublicBooking) (emp bdate : String)
    (startSec endSec : Nat) : Bool :=
  decide (0 < (publicConflictRows table emp bdate startSec endSec).length)

/-- The row inserted at lines 129-143. -/
def mkPublicBooking (db : Db) (req : PublicBookingRequest) (biz : String)
    (svc : Service) (startSec : Nat) : PublicBooking :=
  { id := toString db.next_id
    customer_id := req.customer_id
    client_profile_id := req.client_profile_id
    client_business_id := biz
    employee_id := req.employee_id
    service_id := req.service_id
    booking_date := req.booking_date
    start_sec := startSec
    end_sec := startSec + svc.duration_service_in_s
    status := .pending
    total_price := svc.price
    notes := req.notes }

/-- The write phase of check-then-insert: a bare insert into `booking`. -/
def publicInsertPhase (db : Db) (bk : PublicBooking) : Db :=
  { db with
    booking_table := bk :: db.booking_table
    next_id := db.next_id + 1 }

/-- POST handler of `public-bookings.ts` (after the method check): validate
shapes, load client profile / service / customer, combine date and time
(`toISOString` throws on an Invalid Date, landing in the catch-all 500),
run the conflict query, then insert with `status := pending` and the price
copied from the service. -/
def publicCreateBooking (db : Db) (req : PublicBookingRequest) :
    Except Nat (Db × PublicBooking) :=
  if !publicShapeOk req then .error 400
  else
    match db.client_profiles.find? (fun p => p.id == req.client_profile_id) with
    | none => .error 404
    | some cp =>
      match cp.client_business_id with
      | none => .error 404
      | some biz =>
        match db.services.find? (fun s => s.id == req.service_id) with
        | none => .error 404
        | some svc =>
          if !db.customers.contains req.customer_id then .error 404
          else
            match jsCombine req.booking_date req.start_time with
            | none => .error 500
            | some startSec =>
              if publicCheckPhase db.booking_table req.employee_id req.booking_date
                  startSec (startSec + svc.duration_service_in_s) then .error 409
              else
                .ok (publicInsertPhase db (mkPublicBooking db req biz svc startSec),
                     mkPublicBooking db req biz svc startSec)

/-! ## Admin create/update path (`src/unnamed/part_017`) -/

/-- The zod `parse` gate of part_017's `createBookingSchema`.  A failure
throws a ZodError, which carries no `statusCode` and therefore falls into
the handler's generic catch: the caller sees 500, not 400. -/
def adminCreateShapeOk (req : AdminBookingRequest) : Bool :=
  isUuid req.client_id && isUuid req.employee_id && isUuid req.service_id &&
    matchesDateShape req.booking_date && matchesTimeShape req.start_time

/-- Stored `end_time` of the POST case: `HH:MM` of `start + duration`,
truncated to whole minutes and wrapped at midnight; `none` is the
`"Inval"` string obtained when the start did not parse. -/
def adminEndHm (dateStr timeStr : String) (durationS : Nat) : Option Nat :=
  (jsCombine dateStr timeStr).map (fun startSec => (startSec + durationS) % 86400 / 60)

/-- The row inserted by the POST case of part_017.  Note: no conflict check
of any kind happens before this insert. -/
def mkAdminBooking (db : Db) (req : AdminBookingRequest) (svc : Service) : AdminBooking :=
  { id := toString db.next_id
    client_id := req.client_id
    employee_id := req.employee_id
    service_id := req.service_id
    booking_date := req.booking_date
    start_hm := hmValue req.start_time
    end_hm := adminEndHm req.booking_date req.start_time svc.duration_service_in_s
    status := .pending
    total_price := svc.price
    notes := req.notes }

/-- POST case of part_017: validate, resolve the service (400 on a missing
one), compute the end time, insert.  There is no overlap test. -/
def adminCreateBooking (db : Db) (req : AdminBookingRequest) :
    Except Nat (Db × AdminBooking) :=
  if !adminCreateShapeOk req then .error 500
  else
    match db.services.find? (fun s => s.id == req.service_id) with
    | none => .error 400
    | some svc =>
      .ok ({ db with
             bookings_table := mkAdminBooking db req svc :: db.bookings_table
             next_id := db.next_id + 1 }, mkAdminBooking db req svc)

/-- The zod `parse` gate of `updateBookingSchema`; as for create, a failure
surfaces as 500 via the generic catch. -/
def adminPatchShapeOk (patch : AdminBookingPatch) : Bool :=
  patch.employee_id.all isUuid && patch.service_id.all isUuid &&
    patch.booking_date.all matchesDateShape && patch.start_time.all matchesTimeShape

/-- The merged row written by the PUT case when `service_id`, `start_time`
or `booking_date` is in the patch: target service/date/start merged from
patch and current row, `end_time` recomputed, and — notably —
`total_price` overwritten with the service's current price. -/
def adminMergedRow (cur : AdminBooking) (patch : AdminBookingPatch)
    (svc : Service) : AdminBooking :=
  { cur with
    employee_id := patch.employee_id.getD cur.employee_id
    service_id := patch.service_id.getD cur.service_id
    booking_date := patch.booking_date.getD cur.booking_date
    start_hm := (patch.start_time.map hmValue).getD cur.start_hm
    end_hm := adminEndHm (patch.booking_date.getD cur.booking_date)
      (patch.start_time.getD (hmRender cur.start_hm)) svc.duration_service_in_s
    status := patch.status.getD cur.status
    total_price := svc.price
    notes := match patch.notes with | some n => some n | none => cur.notes }

/-- The row written by the PUT case when none of service/start/date is in
the patch: only the provided columns change; `total_price` and the time
fields are untouched. -/
def adminPatchedRow (cur : AdminBooking) (patch : AdminBookingPatch) : AdminBooking :=
  { cur with
    employee_id := patch.employee_id.getD cur.employee_id
    status := patch.status.getD cur.status
    notes := match patch.notes with | some n => some n | none => cur.notes }

/-- Replace the row with the given id (`.update(...).eq('id', bid)`). -/
def replaceRow (table : List AdminBooking) (bid : String)
    (updated : AdminBooking) : List AdminBooking :=
  table.map (fun b => if b.id == bid then updated else b)

/-- PUT case of part_017.  When the patch contains `service_id`,
`start_time` or `booking_date` (NOT `employee_id`), the handler loads the
current row, merges, recomputes `end_time`/`total_price`, and persists.
No overlap test is run in either branch, and the edited row is never
compared against other bookings. -/
def adminUpdateBooking (db : Db) (bookingId : Option String)
    (patch : AdminBookingPatch) : Except Nat (Db × AdminBooking) :=
  match bookingId with
  | none => .error 400
  | some bid =>
    if !adminPatchShapeOk patch then .error 500
    else if patch.service_id.isSome || patch.start_time.isSome ||
        patch.booking_date.isSome then
      match db.bookings_table.find? (fun b => b.id == bid) with
      | none => .error 404
      | some cur =>
        match db.services.find? (fun s => s.id == patch.service_id.getD cur.service_id) with
        | none => .error 400
        | some svc =>
          .ok ({ db with bookings_table :=
                  replaceRow db.bookings_table bid (adminMergedRow cur patch svc) },
               adminMergedRow cur patch svc)
    else
      match db.bookings_table.find? (fun b => b.id == bid) with
      | none => .error 500
      | some cur =>
        .ok ({ db with bookings_table :=
                replaceRow db.bookings_table bid (adminPatchedRow cur patch) },
             adminPatchedRow cur patch)

/-! ## Availability checkers (client side) -/

/-- A booking row as the calendar/wizard views see it: the date string plus
the start/end instants denoted by the stored time strings. -/
structure CalBooking where
  booking_date : String
  start_sec : Nat
  end_sec : Nat
  status : BookingStatus
deriving DecidableEq, Repr

/-- `getBookingsOverlappingTime` from `src/unnamed/part_010`: bookings of the
selected date whose span contains the slot instant, via
`slotTime >= startTime && slotTime < endTime` — half-open, but with no
filter on `status`. -/
def getBookingsOverlappingTime (bookings : List CalBooking) (dateStr : String)
    (slotSec : Nat) : List CalBooking :=
  bookings.filter (fun b =>
    b.booking_date == dateStr &&
      decide (b.start_sec ≤ slotSec) && decide (slotSec < b.end_sec))

/-- Minutes-of-day denoted by the `HH:MM` slice the Vue code extracts from a
stored time string (`slice(11, 16)` of an ISO string or `slice(0, 5)` of a
time string). -/
def sliceHm (sec : Nat) : Nat :=
  sec % 86400 / 60

/-- `isTimeSlotAvailable` from `StepCustomerInfo.vue`: the slot is available
unless some booking of the selected date (any `status`) satisfies
`slotTimeInMinutes >= startTimeInMinutes && slotTimeInMinutes <= endTimeInMinutes`
— both bounds INCLUSIVE, per the comment "inclusive of both start and end"
in the source. -/
def isTimeSlotAvailable (bookings : List CalBooking) (dateStr : String)
    (slotMin : Nat) : Bool :=
  !(bookings.any (fun b =>
    b.booking_date == dateStr &&
      decide (sliceHm b.start_sec ≤ slotMin) && decide (slotMin ≤ sliceHm b.end_sec)))

/-! ## Slot grid (`timeSlots` of `StepCustomerInfo.vue`) -/

/-- The double loop of `timeSlots`: hours 8..20, minutes 0 and 30, breaking
out of the minute loop at `hour === 20 && minute > 0`. -/
def timeSlots : List String :=
  (List.range' 8 13).flatMap (fun hour =>
    (([0, 30] : List Nat).takeWhile (fun minute => !(hour == 20 && minute > 0))).map
      (fun minute => pad2 hour ++ ":" ++ pad2 minute))

/-! ## Invariants and operation sequences -/

/-- Boolean pairwise check over a list. -/
def pairwiseB (r : α → α → Bool) : List α → Bool
  | [] => true
  | x :: xs => xs.all (r x) && pairwiseB r xs

/-- Two `booking`-table rows violate the spec's invariant when they belong to
the same employee on the same calendar date, neither is cancelled, and their
[start, end) instant intervals intersect. -/
def publicPairOk (a b : PublicBooking) : Bool :=
  !(a.employee_id == b.employee_id && a.booking_date == b.booking_date &&
    !(a.status == .cancelled) && !(b.status == .cancelled) &&
    decide (a.start_sec < b.end_sec) && decide (b.start_sec < a.end_sec))

/-- The no-overlap invariant on the `booking` table (same employee, same
date, non-cancelled, half-open intersection). -/
def publicNoOverlap (table : List PublicBooking) : Bool :=
  pairwiseB publicPairOk table

/-- Instant interval of a `bookings`-table row: the stored `HH:MM` fields
placed on the row's `booking_date`, in minutes. -/
def adminPairOk (a b : AdminBooking) : Bool :=
  !(a.employee_id == b.employee_id && a.booking_date == b.booking_date &&
    !(a.status == .cancelled) && !(b.status == .cancelled) &&
    (match a.end_hm, b.end_hm with
     | some ae, some be =>
       decide (a.start_hm < be) && decide (b.start_hm < ae)
     | _, _ => false))

/-- The no-overlap invariant on the `bookings` table. -/
def adminNoOverlap (table : List AdminBooking) : Bool :=
  pairwiseB adminPairOk table

/-- One request through one of the repository's booking write paths. -/
inductive BookingOp
  | publicCreate (req : PublicBookingRequest)
  | adminCreate (req : AdminBookingRequest)
  | adminUpdate (bookingId : Option String) (patch : AdminBookingPatch)
deriving Repr

/-- Apply one operation: a handler error leaves the store unchanged (every
error in both handlers is thrown before the corresponding insert/update). -/
def applyOp (db : Db) (op : BookingOp) : Db :=
  match op with
  | .publicCreate req =>
    match publicCreateBooking db req with
    | .ok (db', _) => db'
    | .error _ => db
  | .adminCreate req =>
    match adminCreateBooking db req with
    | .ok (db', _) => db'
    | .error _ => db
  | .adminUpdate bid patch =>
    match adminUpdateBooking db bid patch with
    | .ok (db', _) => db'
    | .error _ => db

/-- Run a sequence of write requests. -/
def runOps (db : Db) (ops : List BookingOp) : Db :=
  ops.foldl applyOp db

/-- Recognizer for operations that go through the public create path. -/
def isPublicCreateOp : BookingOp → Bool
  | .publicCreate _ => true
  | _ => false

/-! ## Result projections (used to state concrete counterexamples) -/

def resultCode (r : Except Nat α) : Option Nat :=
  match r with
  | .error c => some c
  | .ok _ => none

def isOkResult (r : Except Nat α) : Bool :=
  match r with
  | .ok _ => true
  | .error _ => false

def okPayload (r : Except Nat α) : Option α :=
  match r with
  | .ok a => some a
  | .error _ => none

/-! ## Concrete fixtures for counterexamples and witnesses -/

def empU : String := "11111111-1111-1111-1111-111111111111"

def svcU : String := "22222222-2222-2222-2222-222222222222"

def svc90U : String := "33333333-3333-3333-3333-333333333333"

def custU : String := "44444444-4444-4444-4444-444444444444"

def profU : String := "55555555-5555-5555-5555-555555555555"

def bizU : String := "66666666-6666-6666-6666-666666666666"

def d0 : String := "2025-03-10"

/-- Day index of `d0`. -/
def day0 : Nat := dayNumber 2025 3 10

/-- Instant (seconds) of minutes-of-day `hm` on `d0`. -/
def secOn (hm : Nat) : Nat := day0 * 86400 + hm * 60

/-- A 30-minute service priced 50. -/
def svc30 : Service := { id := svcU, price := 50, duration_service_in_s := 1800 }

/-- A 90-second service (an integer-seconds duration the data model allows). -/
def svc90s : Service := { id := svc90U, price := 40, duration_service_in_s := 90 }

def dbPub : Db :=
  { client_profiles := [{ id := profU, client_business_id := some bizU }]
    services := [svc30, svc90s]
    customers := [custU]
    booking_table := []
    bookings_table := []
    next_id := 0 }

def reqPub (t : String) : PublicBookingRequest :=
  { client_profile_id := profU, customer_id := custU, employee_id := empU
    service_id := svcU, booking_date := d0, start_time := t, notes := none }

/-- An existing non-cancelled `booking`-table row for employee `empU`,
10:00-10:30 on `d0`. -/
def bkTen : PublicBooking :=
  { id := "existing", customer_id := custU, client_profile_id := profU
    client_business_id := bizU, employee_id := empU, service_id := svcU
    booking_date := d0, start_sec := secOn 600, end_sec := secOn 630
    status := .pending, total_price := 50, notes := none }

def reqAdm (t : String) : AdminBookingRequest :=
  { client_id := custU, employee_id := empU, service_id := svcU
    booking_date := d0, start_time := t, notes := none }

/-- A `bookings`-table row for employee `empU`, 10:00-10:30 on `d0`. -/
def admA : AdminBooking :=
  { id := "a", client_id := custU, employee_id := empU, service_id := svcU
    booking_date := d0, start_hm := 600, end_hm := some 630
    status := .pending, total_price := 50, notes := none }

/-- A second `bookings`-table row for employee `empU`, 11:00-11:30 on `d0`. -/
def admB : AdminBooking :=
  { admA with id := "b", start_hm := 660, end_hm := some 690 }

/-- A patch that only moves the start time to 11:00. -/
def patchMove : AdminBookingPatch :=
  { employee_id := none, service_id := none, booking_date := none
    start_time := some "11:00", status := none, notes := none }

/-- A patch that only sets the status. -/
def patchStatus (st : BookingStatus) : AdminBookingPatch :=
  { employee_id := none, service_id := none, booking_date := none
    start_time := none, status := some st, notes := none }

/-- Store holding an existing 10:00-10:30 booking for `empU` in `booking`. -/
def dbWithTen : Db := { dbPub with booking_table := [bkTen] }

/-- Store holding a CANCELLED 10:00-10:30 booking for `empU` in `booking`. -/
def dbWithTenCancelled : Db :=
  { dbPub with booking_table := [{ bkTen with status := .cancelled }] }

/-- Store holding the two admin rows `admA` (10:00-10:30) and `admB`
(11:00-11:30) in `bookings`. -/
def dbWithAB : Db := { dbPub with bookings_table := [admA, admB] }

/-- Store where booking `admA` (captured `total_price` 50) exists and the
service's price has since been changed to 75. -/
def dbPriceBumped : Db :=
  { dbPub with
    bookings_table := [admA]
    services := [{ svc30 with price := 75 }, svc90s] }

/-- The 10:00-10:30 row as the calendar views see it. -/
def calTen : CalBooking :=
  { booking_date := d0, start_sec := secOn 600, end_sec := secOn 630, status := .pending }

/-- Same interval, status cancelled. -/
def calTenCancelled : CalBooking := { calTen with status := .cancelled }

/-- Row inserted by the first of two racing identical creates. -/
def raceBk1 : PublicBooking := mkPublicBooking dbPub (reqPub "10:00") bizU svc30 (secOn 600)

/-- Row inserted by the second racing create (its check also read the
initial, empty table). -/
def raceBk2 : PublicBooking :=
  mkPublicBooking (publicInsertPhase dbPub raceBk1) (reqPub "10:00") bizU svc30 (secOn 600)

/-! ## Helper lemmas -/

/-- When validation and all lookups succeed, the public create handler is
exactly an unsynchronized check-then-insert on the `booking` table. -/
theorem publicCreate_phased (db : Db) (req : PublicBookingRequest)
    (cp : ClientProfile) (biz : String) (svc : Service) (startSec : Nat)
    (hshape : publicShapeOk req = true)
    (hprof : db.client_profiles.find? (fun p => p.id == req.client_profile_id) = some cp)
    (hbiz : cp.client_business_id = some biz)
    (hsvc : db.services.find? (fun s => s.id == req.service_id) = some svc)
    (hcust : db.customers.contains req.customer_id = true)
    (hcomb : jsCombine req.booking_date req.start_time = some startSec) :
    publicCreateBooking db req =
      if publicCheckPhase db.booking_table req.employee_id req.booking_date startSec
          (startSec + svc.duration_service_in_s) then
        .error 409
      else
        .ok (publicInsertPhase db (mkPublicBooking db req biz svc startSec),
             mkPublicBooking db req biz svc startSec) := by
  unfold publicCreateBooking
  simp only [hshape, hprof, hbiz, hsvc, hcust, hcomb]
  simp

/-- The read phase reports a conflict exactly when some stored row of the
same employee and date meets the closed-interval test. -/
theorem publicCheckPhase_iff (table : List PublicBooking) (emp bdate : String)
    (startSec endSec : Nat) :
    publicCheckPhase table emp bdate startSec endSec = true ↔
      ∃ b ∈ table, b.employee_id = emp ∧ b.booking_date = bdate ∧
        b.start_sec ≤ endSec ∧ startSec ≤ b.end_sec := by
  unfold publicCheckPhase publicConflictRows
  rw [decide_eq_true_eq, List.length_pos]
  constructor
  · intro h
    rcases List.exists_mem_of_ne_nil _ h with ⟨b, hb⟩
    rw [List.mem_filter] at hb
    refine ⟨b, hb.1, ?_⟩
    have := hb.2
    simp only [Bool.and_eq_true, beq_iff_eq, decide_eq_true_eq, ge_iff_le] at this
    exact ⟨this.1.1.1, this.1.1.2, this.1.2, this.2⟩
  · rintro ⟨b, hb, h1, h2, h3, h4⟩
    intro hnil
    have : b ∈ List.filter (fun b => b.employee_id == emp && b.booking_date == bdate &&
        decide (b.start_sec ≤ endSec) && decide (b.end_sec ≥ startSec)) table := by
      rw [List.mem_filter]
      refine ⟨hb, ?_⟩
      simp only [Bool.and_eq_true, beq_iff_eq, decide_eq_true_eq, ge_iff_le]
      exact ⟨⟨⟨h1, h2⟩, h3⟩, h4⟩
    rw [hnil] at this
    cases this

/-- Inversion of a successful public create. -/
theorem publicCreate_ok_cases {db : Db} {req : PublicBookingRequest}
    {db' : Db} {bk : PublicBooking}
    (h : publicCreateBooking db req = .ok (db', bk)) :
    ∃ cp biz svc startSec,
      db.client_profiles.find? (fun p => p.id == req.client_profile_id) = some cp ∧
      cp.client_business_id = some biz ∧
      db.services.find? (fun s => s.id == req.service_id) = some svc ∧
      jsCombine req.booking_date req.start_time = some startSec ∧
      publicCheckPhase db.booking_table req.employee_id req.booking_date startSec
        (startSec + svc.duration_service_in_s) = false ∧
      bk = mkPublicBooking db req biz svc startSec ∧
      db' = publicInsertPhase db bk := by
  unfold publicCreateBooking at h
  split at h
  · exact absurd h (by simp)
  split at h
  · exact absurd h (by simp)
  rename_i cp hprof
  split at h
  · exact absurd h (by simp)
  rename_i biz hbiz
  split at h
  · exact absurd h (by simp)
  rename_i svc hsvc
  split at h
  · exact absurd h (by simp)
  rename_i hcust
  split at h
  · exact absurd h (by simp)
  rename_i startSec hcomb
  split at h
  · exact absurd h (by simp)
  rename_i hcheck
  rw [Except.ok.injEq, Prod.mk.injEq] at h
  obtain ⟨h1, h2⟩ := h
  subst h2
  exact ⟨cp, biz, svc, startSec, hprof, hbiz, hsvc, hcomb,
    Bool.eq_false_iff.mpr hcheck, rfl, h1.symm⟩

/-- Inversion of a successful admin create: the inserted row is fully
determined by the request and the resolved service; no condition on the
existing `bookings` rows appears. -/
theorem adminCreate_ok_cases {db : Db} {req : AdminBookingRequest}
    {db' : Db} {bk : AdminBooking}
    (h : adminCreateBooking db req = .ok (db', bk)) :
    ∃ svc, db.services.find? (fun s => s.id == req.service_id) = some svc ∧
      bk = mkAdminBooking db req svc ∧
      db' = { db with
              bookings_table := bk :: db.bookings_table
              next_id := db.next_id + 1 } := by
  unfold adminCreateBooking at h
  split at h
  · exact absurd h (by simp)
  split at h
  · exact absurd h (by simp)
  rename_i svc hsvc
  rw [Except.ok.injEq, Prod.mk.injEq] at h
  obtain ⟨h1, h2⟩ := h
  subst h2
  exact ⟨svc, hsvc, rfl, h1.symm⟩

/-- The recompute branch of the PUT case, as an equation: once the row and
the merged service resolve, the write happens unconditionally. -/
theorem adminUpdate_recompute_eq (db : Db) (bid : String)
    (patch : AdminBookingPatch) (cur : AdminBooking) (svc : Service)
    (hshape : adminPatchShapeOk patch = true)
    (hrec : (patch.service_id.isSome || patch.start_time.isSome ||
      patch.booking_date.isSome) = true)
    (hcur : db.bookings_table.find? (fun b => b.id == bid) = some cur)
    (hsvc : db.services.find?
      (fun s => s.id == patch.service_id.getD cur.service_id) = some svc) :
    adminUpdateBooking db (some bid) patch =
      .ok ({ db with bookings_table :=
              replaceRow db.bookings_table bid (adminMergedRow cur patch svc) },
           adminMergedRow cur patch svc) := by
  unfold adminUpdateBooking
  simp only [hshape, hrec, hcur, hsvc]
  simp

/-- The non-recompute branch of the PUT case, as an equation. -/
theorem adminUpdate_statusOnly_eq (db : Db) (bid : String)
    (patch : AdminBookingPatch) (cur : AdminBooking)
    (hshape : adminPatchShapeOk patch = true)
    (hs : patch.service_id = none) (ht : patch.start_time = none)
    (hd : patch.booking_date = none)
    (hcur : db.bookings_table.find? (fun b => b.id == bid) = some cur) :
    adminUpdateBooking db (some bid) patch =
      .ok ({ db with bookings_table :=
              replaceRow db.bookings_table bid (adminPatchedRow cur patch) },
           adminPatchedRow cur patch) := by
  unfold adminUpdateBooking
  simp only [hshape, hs, ht, hd, hcur]
  simp

/-- A row that fails the closed-interval conflict test cannot open-overlap
the inserted row. -/
theorem pairOk_of_check_false {db : Db} {req : PublicBookingRequest}
    {biz : String} {svc : Service} {startSec : Nat} {b : PublicBooking}
    (hb : (b.employee_id == req.employee_id && b.booking_date == req.booking_date &&
      decide (b.start_sec ≤ startSec + svc.duration_service_in_s) &&
      decide (b.end_sec ≥ startSec)) = false) :
    publicPairOk (mkPublicBooking db req biz svc startSec) b = true := by
  have hb' : ¬(b.employee_id = req.employee_id ∧ b.booking_date = req.booking_date ∧
      b.start_sec ≤ startSec + svc.duration_service_in_s ∧ startSec ≤ b.end_sec) := by
    rintro ⟨h1, h2, h3, h4⟩
    rw [Bool.eq_false_iff] at hb
    exact hb (by simp [h1, h2, h3, h4])
  rw [show publicPairOk (mkPublicBooking db req biz svc startSec) b =
    !(req.employee_id == b.employee_id && req.booking_date == b.booking_date &&
      !(BookingStatus.pending == BookingStatus.cancelled) &&
      !(b.status == BookingStatus.cancelled) &&
      decide (startSec < b.end_sec) &&
      decide (b.start_sec < startSec + svc.duration_service_in_s)) from rfl]
  rw [Bool.not_eq_true', Bool.eq_false_iff]
  intro hcontra
  simp only [Bool.and_eq_true, beq_iff_eq, decide_eq_true_eq] at hcontra
  exact hb' ⟨hcontra.1.1.1.1.1.symm, hcontra.1.1.1.1.2.symm,
    by have := hcontra.2; omega, by have := hcontra.1.2; omega⟩

/-- Every stored row escapes the conflict filter when the read phase
reports no conflict. -/
theorem checkPhase_false_elim {table : List PublicBooking} {emp bdate : String}
    {s e : Nat}
    (h : publicCheckPhase table emp bdate s e = false)
    {b : PublicBooking} (hb : b ∈ table) :
    (b.employee_id == emp && b.booking_date == bdate &&
      decide (b.start_sec ≤ e) && decide (b.end_sec ≥ s)) = false := by
  unfold publicCheckPhase publicConflictRows at h
  rw [decide_eq_false_iff_not, Nat.not_lt, Nat.le_zero, List.length_eq_zero] at h
  exact Bool.eq_false_iff.mpr (List.filter_eq_nil_iff.mp h b hb)

/-- A successful public create preserves the per-date no-overlap invariant
of the `booking` table (and a failed one leaves the table unchanged). -/
theorem publicCreate_preserves (db : Db) (req : PublicBookingRequest)
    (hinv : publicNoOverlap db.booking_table = true) :
    publicNoOverlap (applyOp db (.publicCreate req)).booking_table = true := by
  cases h : publicCreateBooking db req with
  | error e => simpa [applyOp, h] using hinv
  | ok p =>
    obtain ⟨db', bk⟩ := p
    obtain ⟨cp, biz, svc, startSec, hprof, hbiz, hsvc, hcomb, hcheck, hbk, hdb⟩ :=
      publicCreate_ok_cases h
    simp only [applyOp, h]
    subst hbk
    subst hdb
    unfold publicInsertPhase publicNoOverlap pairwiseB
    rw [Bool.and_eq_true]
    refine ⟨?_, hinv⟩
    rw [List.all_eq_true]
    intro b hbmem
    exact pairOk_of_check_false (checkPhase_false_elim hcheck hbmem)

/-! ## Claim theorems -/

/-- Claim C9: generating the candidate slot grid for 08:00-20:00 with a
30-minute step produces exactly the 25 values 08:00, 08:30, ..., 20:00 in
ascending order, inclusive of both the open bound and (because it falls on
a step boundary) the close bound; `timeSlots` is a pure function, so
repeated generation yields the identical sequence. -/
theorem timeSlots_grid_correct :
    timeSlots = ["08:00", "08:30", "09:00", "09:30", "10:00", "10:30",
      "11:00", "11:30", "12:00", "12:30", "13:00", "13:30", "14:00",
      "14:30", "15:00", "15:30", "16:00", "16:30", "17:00", "17:30",
      "18:00", "18:30", "19:00", "19:30", "20:00"] ∧
    timeSlots.length = 25 ∧
    pairwiseB (fun a b => decide (hmValue a < hmValue b)) timeSlots = true := by
  refine ⟨?_, ?_, ?_⟩ <;> rfl

/-- Claim C1, counterexample: the admin create path (part_017 POST) runs no
conflict check, so two identical non-cancelled bookings for the same
employee and slot are both accepted and the stored `bookings` rows violate
the no-overlap invariant; the second create intersects an existing
non-cancelled booking yet is not rejected. -/
theorem adminCreate_breaks_noOverlap :
    isOkResult (adminCreateBooking (applyOp dbPub (.adminCreate (reqAdm "10:00")))
      (reqAdm "10:00")) = true ∧
    adminNoOverlap (runOps dbPub
      [.adminCreate (reqAdm "10:00"), .adminCreate (reqAdm "10:00")]).bookings_table
      = false := by
  exact ⟨rfl, rfl⟩

/-- Claim C1, amended: restricted to the public create path, every sequence
of create operations preserves the invariant that no two stored bookings of
the same employee with the same booking date have intersecting
[start, end) intervals with both statuses non-cancelled (the path's
closed-interval reject condition is implied by any such intersection).  The
admin create and update paths check nothing and break the invariant. -/
theorem publicCreate_only_noOverlap_preserved :
    ∀ (ops : List BookingOp) (db : Db), ops.all isPublicCreateOp = true →
      publicNoOverlap db.booking_table = true →
      publicNoOverlap (runOps db ops).booking_table = true := by
  intro ops
  induction ops with
  | nil => intro db _ h; exact h
  | cons op rest ih =>
    intro db hops hinv
    rw [List.all_cons, Bool.and_eq_true] at hops
    cases op with
    | publicCreate req =>
      exact ih (applyOp db (.publicCreate req)) hops.2 (publicCreate_preserves db req hinv)
    | adminCreate req => exact absurd hops.1 (by simp [isPublicCreateOp])
    | adminUpdate bid patch => exact absurd hops.1 (by simp [isPublicCreateOp])

/-- Witness for the amended C1 theorem at a concrete store and operation. -/
theorem publicCreate_only_noOverlap_preserved_app :
    publicNoOverlap (runOps dbWithTen [.publicCreate (reqPub "11:00")]).booking_table
      = true :=
  publicCreate_only_noOverlap_preserved [.publicCreate (reqPub "11:00")] dbWithTen
    (by rfl) (by rfl)

/-- Claim C2, counterexample: a request starting exactly at an existing
booking's end (back-to-back, 10:30 after a 10:00-10:30 booking) satisfies
the claimed strict-inequality conflict test against no loaded booking, yet
the public create fails with Conflict (409) because the handler's query
uses closed bounds (`lte`/`gte`). -/
theorem backToBack_conflicts :
    (∀ b ∈ dbWithTen.booking_table,
      ¬(secOn 630 < b.end_sec ∧ b.start_sec < secOn 660)) ∧
    publicCreateBooking dbWithTen (reqPub "10:30") = .error 409 := by
  exact ⟨by decide, rfl⟩

/-- Claim C2, amended: once validation and the profile/service/customer
lookups succeed, the public create fails with Conflict exactly when some
row of the `booking` table with the same employee and the same booking date
— of ANY status — satisfies the closed-interval test
`existing.start <= end AND existing.end >= start`; in particular a
back-to-back request (start = existing end) IS rejected. -/
theorem publicCreate_conflict_iff_closed_overlap (db : Db)
    (req : PublicBookingRequest) (cp : ClientProfile) (biz : String)
    (svc : Service) (startSec : Nat)
    (hshape : publicShapeOk req = true)
    (hprof : db.client_profiles.find? (fun p => p.id == req.client_profile_id) = some cp)
    (hbiz : cp.client_business_id = some biz)
    (hsvc : db.services.find? (fun s => s.id == req.service_id) = some svc)
    (hcust : db.customers.contains req.customer_id = true)
    (hcomb : jsCombine req.booking_date req.start_time = some startSec) :
    publicCreateBooking db req = .error 409 ↔
      ∃ b ∈ db.booking_table, b.employee_id = req.employee_id ∧
        b.booking_date = req.booking_date ∧
        b.start_sec ≤ startSec + svc.duration_service_in_s ∧
        startSec ≤ b.end_sec := by
  rw [publicCreate_phased db req cp biz svc startSec hshape hprof hbiz hsvc hcust hcomb]
  rw [← publicCheckPhase_iff db.booking_table req.employee_id req.booking_date startSec
    (startSec + svc.duration_service_in_s)]
  by_cases h : publicCheckPhase db.booking_table req.employee_id req.booking_date
      startSec (startSec + svc.duration_service_in_s) = true
  · simp [h]
  · simp [h]

/-- Witness for the amended C2 theorem: an overlapping 10:15 request
against the 10:00-10:30 booking. -/
theorem publicCreate_conflict_iff_closed_overlap_app :
    publicCreateBooking dbWithTen (reqPub "10:15") = .error 409 ↔
      ∃ b ∈ dbWithTen.booking_table,
        b.employee_id = (reqPub "10:15").employee_id ∧
        b.booking_date = (reqPub "10:15").booking_date ∧
        b.start_sec ≤ secOn 615 + svc30.duration_service_in_s ∧
        secOn 615 ≤ b.end_sec :=
  publicCreate_conflict_iff_closed_overlap dbWithTen (reqPub "10:15")
    { id := profU, client_business_id := some bizU } bizU svc30 (secOn 615)
    rfl rfl rfl rfl rfl rfl

/-- Claim C3, counterexample: the admin update path (part_017 PUT) re-runs
no overlap test at all — moving booking `a` (10:00-10:30) onto booking
`b`'s interval (11:00-11:30) succeeds instead of failing with Conflict, and
the overlapping state is persisted. -/
theorem adminUpdate_moves_onto_other_booking :
    resultCode (adminUpdateBooking dbWithAB (some "a") patchMove) = none ∧
    (okPayload (adminUpdateBooking dbWithAB (some "a") patchMove)).map
      (fun p => adminNoOverlap p.1.bookings_table) = some false := by
  exact ⟨rfl, rfl⟩

/-- Claim C3, amended: when the patch contains any of service, date or
start time (employee alone does NOT trigger the branch), the update merely
recomputes end time and price on the merged values and persists
unconditionally — no overlap test is run, with or without self-exclusion,
so the update never fails with Conflict once the row and the merged
service resolve. -/
theorem adminUpdate_recompute_never_conflicts (db : Db) (bid : String)
    (patch : AdminBookingPatch) (cur : AdminBooking) (svc : Service)
    (hshape : adminPatchShapeOk patch = true)
    (hrec : (patch.service_id.isSome || patch.start_time.isSome ||
      patch.booking_date.isSome) = true)
    (hcur : db.bookings_table.find? (fun b => b.id == bid) = some cur)
    (hsvc : db.services.find?
      (fun s => s.id == patch.service_id.getD cur.service_id) = some svc) :
    adminUpdateBooking db (some bid) patch =
      .ok ({ db with bookings_table :=
              replaceRow db.bookings_table bid (adminMergedRow cur patch svc) },
           adminMergedRow cur patch svc) :=
  adminUpdate_recompute_eq db bid patch cur svc hshape hrec hcur hsvc

/-- Witness for the amended C3 theorem: the concrete move of `admA` onto
`admB`'s interval goes through the recompute branch and succeeds. -/
theorem adminUpdate_recompute_never_conflicts_app :
    adminUpdateBooking dbWithAB (some "a") patchMove =
      .ok ({ dbWithAB with bookings_table :=
              (replaceRow dbWithAB.bookings_table "a" (adminMergedRow admA patchMove svc30)) },
           adminMergedRow admA patchMove svc30) :=
  adminUpdate_recompute_never_conflicts dbWithAB "a" patchMove admA svc30
    rfl rfl rfl rfl

/-- Claim C4, counterexample: the public conflict query has no status
filter, so a request overlapping only a CANCELLED booking for that
employee and date is rejected with Conflict instead of succeeding. -/
theorem cancelled_slot_still_conflicts :
    (∀ b ∈ dbWithTenCancelled.booking_table, b.status = BookingStatus.cancelled) ∧
    publicCreateBooking dbWithTenCancelled (reqPub "10:00") = .error 409 := by
  exact ⟨by decide, rfl⟩

/-- Claim C4, amended: cancelled bookings are NOT excluded from the public
create conflict check — any stored row of the same employee and date
meeting the closed-interval test forces Conflict, even when its status is
cancelled, so a cancelled slot cannot be re-booked through this path. -/
theorem publicCreate_conflict_on_cancelled_overlap (db : Db)
    (req : PublicBookingRequest) (cp : ClientProfile) (biz : String)
    (svc : Service) (startSec : Nat)
    (hshape : publicShapeOk req = true)
    (hprof : db.client_profiles.find? (fun p => p.id == req.client_profile_id) = some cp)
    (hbiz : cp.client_business_id = some biz)
    (hsvc : db.services.find? (fun s => s.id == req.service_id) = some svc)
    (hcust : db.customers.contains req.customer_id = true)
    (hcomb : jsCombine req.booking_date req.start_time = some startSec)
    (b : PublicBooking) (hb : b ∈ db.booking_table)
    (hcanc : b.status = BookingStatus.cancelled)
    (hemp : b.employee_id = req.employee_id)
    (hdate : b.booking_date = req.booking_date)
    (h1 : b.start_sec ≤ startSec + svc.duration_service_in_s)
    (h2 : startSec ≤ b.end_sec) :
    publicCreateBooking db req = .error 409 := by
  rw [publicCreate_phased db req cp biz svc startSec hshape hprof hbiz hsvc hcust hcomb]
  have hch : publicCheckPhase db.booking_table req.employee_id req.booking_date
      startSec (startSec + svc.duration_service_in_s) = true :=
    (publicCheckPhase_iff _ _ _ _ _).mpr ⟨b, hb, hemp, hdate, h1, h2⟩
  rw [if_pos hch]

/-- Witness for the amended C4 theorem: the cancelled 10:00-10:30 booking
forces a 409 on the 10:00 request. -/
theorem publicCreate_conflict_on_cancelled_overlap_app :
    publicCreateBooking dbWithTenCancelled (reqPub "10:00") = .error 409 :=
  publicCreate_conflict_on_cancelled_overlap dbWithTenCancelled (reqPub "10:00")
    { id := profU, client_business_id := some bizU } bizU svc30 (secOn 600)
    rfl rfl rfl rfl rfl rfl { bkTen with status := .cancelled } (by decide)
    rfl rfl rfl (by decide) (by decide)

/-- Claim C5, counterexample: `isTimeSlotAvailable` treats the booking span
as inclusive of its end, so the slot exactly at a booking's end (10:30
after a 10:00-10:30 booking) is reported occupied, not available; and
neither checker filters out cancelled bookings, so a cancelled booking
still blocks its slots and is returned as overlapping. -/
theorem slot_at_end_reported_occupied :
    isTimeSlotAvailable [calTen] d0 630 = false ∧
    isTimeSlotAvailable [calTenCancelled] d0 600 = false ∧
    getBookingsOverlappingTime [calTenCancelled] d0 (secOn 600) = [calTenCancelled] := by
  exact ⟨rfl, rfl, rfl⟩

/-- Claim C5, amended: `isTimeSlotAvailable` reports a slot occupied
exactly when some booking of the selected date — of ANY status — satisfies
`start <= t <= end` with the END bound INCLUSIVE (so a multi-bucket booking
does block every bucket inside its span, but the slot at its end instant is
also blocked); `getBookingsOverlappingTime` returns exactly the bookings of
the date — again of any status — whose half-open span `start <= t < end`
contains the instant. -/
theorem availability_characterization :
    (∀ (bookings : List CalBooking) (dateStr : String) (slotMin : Nat),
      isTimeSlotAvailable bookings dateStr slotMin = false ↔
        ∃ b ∈ bookings, b.booking_date = dateStr ∧
          sliceHm b.start_sec ≤ slotMin ∧ slotMin ≤ sliceHm b.end_sec) ∧
    (∀ (bookings : List CalBooking) (dateStr : String) (slotSec : Nat)
      (b : CalBooking),
      b ∈ getBookingsOverlappingTime bookings dateStr slotSec ↔
        b ∈ bookings ∧ b.booking_date = dateStr ∧
          b.start_sec ≤ slotSec ∧ slotSec < b.end_sec) := by
  constructor
  · intro bookings dateStr slotMin
    unfold isTimeSlotAvailable
    simp [List.any_eq_true, and_assoc]
  · intro bookings dateStr slotSec b
    unfold getBookingsOverlappingTime
    simp [List.mem_filter, and_assoc]

/-- Claim C6, counterexample: the admin create path stores `end_time` as an
`HH:MM` string (`toTimeString().substring(0, 5)`), so for the 90-second
service booked at 10:00 the stored end denotes 10:01:00 — start plus 60
seconds, not start plus the service's 90-second duration. -/
theorem admin_end_time_truncated :
    (okPayload (adminCreateBooking dbPub { reqAdm "10:00" with service_id := svc90U })).map
      (fun p => (p.2.start_hm, p.2.end_hm)) = some (600, some 601) ∧
    (601 * 60 : Nat) ≠ 600 * 60 + svc90s.duration_service_in_s := by
  exact ⟨rfl, by decide⟩

/-- Claim C6, amended: the public create stores
`end = start + duration` exactly (in seconds); the admin create stores
`end_time` as the `HH:MM` of `start + duration` truncated to whole minutes
and wrapped modulo 24 hours (equal to `start + duration` only when the
duration is a multiple of 60 and the sum stays within the day); in both
paths the request carries no end field, so `end` is derived, never
caller-set. -/
theorem end_derived_from_start_and_duration :
    (∀ (db : Db) (req : PublicBookingRequest) (db' : Db) (bk : PublicBooking)
      (svc : Service),
      publicCreateBooking db req = .ok (db', bk) →
      db.services.find? (fun s => s.id == req.service_id) = some svc →
      bk.end_sec = bk.start_sec + svc.duration_service_in_s) ∧
    (∀ (db : Db) (req : AdminBookingRequest) (db' : Db) (bk : AdminBooking)
      (svc : Service) (startSec : Nat),
      adminCreateBooking db req = .ok (db', bk) →
      db.services.find? (fun s => s.id == req.service_id) = some svc →
      jsCombine req.booking_date req.start_time = some startSec →
      bk.start_hm = hmValue req.start_time ∧
      bk.end_hm = some ((startSec + svc.duration_service_in_s) % 86400 / 60)) := by
  constructor
  · intro db req db' bk svc h hsvc
    obtain ⟨cp, biz, svc', s, hprof, hbiz, hsvc', hcomb, hcheck, hbk, hdb⟩ :=
      publicCreate_ok_cases h
    rw [hsvc'] at hsvc
    injection hsvc with he
    subst he
    subst hbk
    rfl
  · intro db req db' bk svc startSec h hsvc hcomb
    obtain ⟨svc', hsvc', hbk, hdb⟩ := adminCreate_ok_cases h
    rw [hsvc'] at hsvc
    injection hsvc with he
    subst he
    subst hbk
    refine ⟨rfl, ?_⟩
    unfold mkAdminBooking adminEndHm
    rw [hcomb]
    rfl

/-- Witness for the amended C6 theorem, both conjuncts applied at concrete
creates. -/
theorem end_derived_from_start_and_duration_app :
    (mkPublicBooking dbPub (reqPub "10:00") bizU svc30 (secOn 600)).end_sec =
      (mkPublicBooking dbPub (reqPub "10:00") bizU svc30 (secOn 600)).start_sec +
        svc30.duration_service_in_s ∧
    (mkAdminBooking dbPub { reqAdm "10:00" with service_id := svc90U } svc90s).start_hm =
      hmValue "10:00" ∧
    (mkAdminBooking dbPub { reqAdm "10:00" with service_id := svc90U } svc90s).end_hm =
      some ((secOn 600 + svc90s.duration_service_in_s) % 86400 / 60) :=
  ⟨end_derived_from_start_and_duration.1 dbPub (reqPub "10:00") _ _ svc30 rfl rfl,
   end_derived_from_start_and_duration.2 dbPub { reqAdm "10:00" with service_id := svc90U }
     _ _ svc90s (secOn 600) rfl rfl rfl⟩

/-- Claim C7, counterexample: booking `admA` was created when the service
cost 50 (`total_price` 50); after the service's price is changed to 75, an
update that merely moves the start time overwrites the booking's
`total_price` with 75 — the price captured at creation is not preserved
across such updates. -/
theorem reschedule_overwrites_total_price :
    admA.total_price = 50 ∧
    (okPayload (adminUpdateBooking dbPriceBumped (some "a") patchMove)).map
      (fun p => p.2.total_price) = some 75 := by
  exact ⟨rfl, rfl⟩

/-- Claim C7, amended: `total_price` stays as captured only while the
booking row itself is untouched or patched on status/notes/employee alone;
any update containing service, date or start time overwrites `total_price`
with the referenced service's CURRENT price. -/
theorem total_price_frozen_only_without_recompute :
    (∀ (db : Db) (bid : String) (patch : AdminBookingPatch) (cur : AdminBooking),
      adminPatchShapeOk patch = true →
      patch.service_id = none → patch.start_time = none → patch.booking_date = none →
      db.bookings_table.find? (fun b => b.id == bid) = some cur →
      (okPayload (adminUpdateBooking db (some bid) patch)).map
        (fun p => p.2.total_price) = some cur.total_price) ∧
    (∀ (db : Db) (bid : String) (patch : AdminBookingPatch) (cur : AdminBooking)
      (svc : Service),
      adminPatchShapeOk patch = true →
      (patch.service_id.isSome || patch.start_time.isSome ||
        patch.booking_date.isSome) = true →
      db.bookings_table.find? (fun b => b.id == bid) = some cur →
      db.services.find?
        (fun s => s.id == patch.service_id.getD cur.service_id) = some svc →
      (okPayload (adminUpdateBooking db (some bid) patch)).map
        (fun p => p.2.total_price) = some svc.price) := by
  constructor
  · intro db bid patch cur hshape hs ht hd hcur
    rw [adminUpdate_statusOnly_eq db bid patch cur hshape hs ht hd hcur]
    rfl
  · intro db bid patch cur svc hshape hrec hcur hsvc
    rw [adminUpdate_recompute_eq db bid patch cur svc hshape hrec hcur hsvc]
    rfl

/-- Witness for the amended C7 theorem: a status-only patch keeps the
captured 50 while the moving patch re-reads the bumped price 75. -/
theorem total_price_frozen_only_without_recompute_app :
    (okPayload (adminUpdateBooking dbPriceBumped (some "a")
        (patchStatus .confirmed))).map (fun p => p.2.total_price) = some admA.total_price ∧
    (okPayload (adminUpdateBooking dbPriceBumped (some "a") patchMove)).map
      (fun p => p.2.total_price) = some ({ svc30 with price := 75 } : Service).price :=
  ⟨total_price_frozen_only_without_recompute.1 dbPriceBumped "a"
     (patchStatus .confirmed) admA rfl rfl rfl rfl rfl,
   total_price_frozen_only_without_recompute.2 dbPriceBumped "a" patchMove admA
     { svc30 with price := 75 } rfl rfl rfl rfl⟩

/-- Claim C8, counterexample: a public create whose `start_time` is not an
`HH:MM` string passes validation (the schema puts no format on it), blows
up at `toISOString()` and surfaces as a 500 internal error, not as the
claimed caller-error InvalidInput; and in the admin path even a malformed
employee UUID surfaces as 500 (the ZodError falls into the generic catch),
not 400.  Nothing is persisted in either case. -/
theorem unparseable_time_yields_internal_error :
    publicCreateBooking dbPub (reqPub "banana") = .error 500 ∧
    adminCreateBooking dbPub { reqAdm "10:00" with employee_id := "not-a-uuid" }
      = .error 500 := by
  exact ⟨rfl, rfl⟩

/-- Claim C8, amended: malformed UUIDs or a malformed date fail the public
create with 400 (InvalidInput) before any lookup; ANY schema violation in
the admin create — malformed UUID, date or time — surfaces as 500; and a
shape-valid public request whose date/time do not combine into a valid
instant fails with 500, not 400.  All of these happen before the insert, so
nothing is persisted (the model returns an error and no store change). -/
theorem validation_error_codes :
    (∀ (db : Db) (req : PublicBookingRequest), publicShapeOk req = false →
      publicCreateBooking db req = .error 400) ∧
    (∀ (db : Db) (req : AdminBookingRequest), adminCreateShapeOk req = false →
      adminCreateBooking db req = .error 500) ∧
    (∀ (db : Db) (req : PublicBookingRequest) (cp : ClientProfile)
      (biz : String) (svc : Service),
      publicShapeOk req = true →
      db.client_profiles.find? (fun p => p.id == req.client_profile_id) = some cp →
      cp.client_business_id = some biz →
      db.services.find? (fun s => s.id == req.service_id) = some svc →
      db.customers.contains req.customer_id = true →
      jsCombine req.booking_date req.start_time = none →
      publicCreateBooking db req = .error 500) := by
  refine ⟨?_, ?_, ?_⟩
  · intro db req h
    unfold publicCreateBooking
    simp [h]
  · intro db req h
    unfold adminCreateBooking
    simp [h]
  · intro db req cp biz svc hshape hprof hbiz hsvc hcust hcomb
    unfold publicCreateBooking
    simp only [hshape, hprof, hbiz, hsvc, hcust, hcomb]
    simp

/-- Witness for the amended C8 theorem at a concrete malformed request. -/
theorem validation_error_codes_app :
    publicCreateBooking dbPub { reqPub "10:00" with booking_date := "tomorrow" }
      = .error 400 :=
  validation_error_codes.1 dbPub { reqPub "10:00" with booking_date := "tomorrow" } rfl

/-- Claim C10, counterexample: the create handler's overlap read and its
insert are two separate storage operations with nothing serializing them
(no transaction and no uniqueness/exclusion constraint exists anywhere in
the repository), so in the interleaving where both of two identical create
calls run their read against the initial empty table before either insert,
both checks pass and after both inserts the stored rows violate the
no-overlap invariant: both calls succeed. -/
theorem race_both_creates_succeed :
    publicCheckPhase dbPub.booking_table empU d0 (secOn 600) (secOn 630) = false ∧
    publicNoOverlap
      (publicInsertPhase (publicInsertPhase dbPub raceBk1) raceBk2).booking_table
      = false := by
  exact ⟨rfl, rfl⟩

/-- Claim C10, amended: once validation and the lookups succeed, the public
create is EXACTLY an application-level check-then-insert — a read phase
over the `booking` table followed, when the read found nothing, by a bare
insert.  No in-process or storage-level mechanism makes the two phases
atomic, so the claim's guarantee would have to come from the storage
collaborator, and no such constraint exists in the repository. -/
theorem publicCreate_is_unsynchronized_check_then_insert (db : Db)
    (req : PublicBookingRequest) (cp : ClientProfile) (biz : String)
    (svc : Service) (startSec : Nat)
    (hshape : publicShapeOk req = true)
    (hprof : db.client_profiles.find? (fun p => p.id == req.client_profile_id) = some cp)
    (hbiz : cp.client_business_id = some biz)
    (hsvc : db.services.find? (fun s => s.id == req.service_id) = some svc)
    (hcust : db.customers.contains req.customer_id = true)
    (hcomb : jsCombine req.booking_date req.start_time = some startSec) :
    publicCreateBooking db req =
      if publicCheckPhase db.booking_table req.employee_id req.booking_date startSec
          (startSec + svc.duration_service_in_s) then
        .error 409
      else
        .ok (publicInsertPhase db (mkPublicBooking db req biz svc startSec),
             mkPublicBooking db req biz svc startSec) :=
  publicCreate_phased db req cp biz svc startSec hshape hprof hbiz hsvc hcust hcomb

/-- Witness for the amended C10 theorem at a concrete request. -/
theorem publicCreate_is_unsynchronized_check_then_insert_app :
    publicCreateBooking dbPub (reqPub "10:00") =
      if publicCheckPhase dbPub.booking_table (reqPub "10:00").employee_id
          (reqPub "10:00").booking_date (secOn 600)
          (secOn 600 + svc30.duration_service_in_s) then
        .error 409
      else
        .ok (publicInsertPhase dbPub (mkPublicBooking dbPub (reqPub "10:00") bizU svc30 (secOn 600)),
             mkPublicBooking dbPub (reqPub "10:00") bizU svc30 (secOn 600)) :=
  publicCreate_is_unsynchronized_check_then_insert dbPub (reqPub "10:00")
    { id := profU, client_business_id := some bizU } bizU svc30 (secOn 600)
    rfl rfl rfl rfl rfl rfl

end Crm
